import Mathlib

/-!
Verification of the deck-editor client scripting of the `alteredbuilder`
repository (files `src/unnamed/part_000` and `src/unnamed/part_001`).

The JavaScript mutates DOM nodes and a module-level object `decklistChanges`
in response to click events.  We embed the page state shallowly:

* a deck row (a child of the `edit-deck-column` container) is a `Row` record
  holding the data the handlers read and write: its `id` attribute, the
  `innerText` of its `card-name` and `card-quantity` descendants (the quantity
  text is always written from a number, so we keep it as an `Int`), its
  `hidden` flag, whether its `remove-card-btn` / `add-card-btn` descendants
  have the click listeners attached, and `markup` standing for all the other
  cloned content (classes, structure) that the handlers never touch;
* the hero slot (`hero-name` input and `remove-hero` button) is the triple
  `heroName` (the input's `value`), `heroRef` (its `data-card-reference`
  attribute) and `removeHeroDisabled`;
* `decklistChanges` is a partial map `String → Option Int`;
* the `edit-deck-column` children are a `List Row` in document order.

Each click handler of the source becomes a function on this state.
-/

structure Row where
  id : String
  name : String
  quantity : Int
  hidden : Bool
  decWired : Bool
  incWired : Bool
  markup : String
deriving DecidableEq, Repr

structure PageState where
  heroName : String
  heroRef : String
  removeHeroDisabled : Bool
  column : List Row
  changes : String → Option Int

/-- The empty `decklistChanges` object created at page load (`var decklistChanges = {}`). -/
def emptyChanges : String → Option Int := fun _ => none

/-- `decklistChanges[k] = v`. -/
def setChange (c : String → Option Int) (k : String) (v : Int) : String → Option Int :=
  fun x => if x = k then some v else c x

/-- `delete decklistChanges[k]`. -/
def delChange (c : String → Option Int) (k : String) : String → Option Int :=
  fun x => if x = k then none else c x

/-- The id the handler gives a card row: `"row-" + cardReference`. -/
def rowId (cardReference : String) : String := "row-" ++ cardReference

/-- `document.getElementById(r)` restricted to the deck column: the first row
whose id attribute is `r`. -/
def findRow (r : String) : List Row → Option Row
  | [] => none
  | row :: rest => if row.id = r then some row else findRow r rest

/-- Writing `q` into the `card-quantity` element of the row `getElementById`
would return: updates the first row whose id is `r`. -/
def setRowQuantity (r : String) (q : Int) : List Row → List Row
  | [] => []
  | row :: rest =>
      if row.id = r then { row with quantity := q } :: rest
      else row :: setRowQuantity r q rest

/-- The `decreaseCardQuantity` handler, fired by a click on the
`remove-card-btn` of the row at position `i` of the deck column.
`event.target.nextElementSibling` is that row's quantity element and
`event.target.parentElement.parentElement.parentElement` is the row container
itself, i.e. the child `i` of the column, so the removal branch erases that
child. -/
def decreaseCardQuantity (s : PageState) (i : Nat) : PageState :=
  match s.column[i]? with
  | none => s
  | some row =>
      let quantity := row.quantity - 1
      if 0 < quantity then
        { s with column := s.column.set i { row with quantity := quantity } }
      else
        { s with column := s.column.eraseIdx i }

/-- The `increaseCardQuantity` handler, fired by a click on the
`add-card-btn` of the row at position `i`: reads the quantity text of
`event.target.previousElementSibling`, adds 1, writes it back. -/
def increaseCardQuantity (s : PageState) (i : Nat) : PageState :=
  match s.column[i]? with
  | none => s
  | some row =>
      { s with column := s.column.set i { row with quantity := row.quantity + 1 } }

/-- The `remove-hero` click handler: reads the stored reference, blanks the
hero input's value and its `data-card-reference`, disables the button, then
toggles the change-set entry for that reference (delete if present, else 0). -/
def removeHero (s : PageState) : PageState :=
  let heroReference := s.heroRef
  match s.changes heroReference with
  | some _ =>
      { s with heroName := "", heroRef := "", removeHeroDisabled := true,
               changes := delChange s.changes heroReference }
  | none =>
      { s with heroName := "", heroRef := "", removeHeroDisabled := true,
               changes := setChange s.changes heroReference 0 }

/-- The `card-display` click handler, fired with the tile's
`data-card-reference`, `data-card-name` and `data-card-type`.

* hero tile: only acts when the hero input's value is `""`;
* otherwise, if a row with id `row-<ref>` exists, the new quantity is
  `decklistChanges[ref] || <displayed quantity>` plus one (JS `||` falls
  through on the falsy values `undefined` and `0`) and is written both to the
  change-set and to the row;
* otherwise a new row is made by `cloneNode(true)` of the column's
  `lastElementChild` (listeners are not cloned, the handler re-attaches
  them), its id, quantity text, name text and hidden flag are set, it is
  appended, and the change-set entry becomes 1.  The DOM contract guarantees
  the column is never empty (it always holds at least the hidden template
  row), so the `getLast? = none` case is dead code kept total. -/
def selectCard (s : PageState) (cardReference cardName cardType : String) : PageState :=
  if cardType = "hero" then
    if s.heroName = "" then
      { s with heroName := cardName, heroRef := cardReference,
               removeHeroDisabled := false,
               changes := setChange s.changes cardReference 1 }
    else s
  else
    match findRow (rowId cardReference) s.column with
    | some row =>
        let quantity : Int :=
          match s.changes cardReference with
          | some q => if q = 0 then row.quantity else q
          | none => row.quantity
        { s with changes := setChange s.changes cardReference (quantity + 1),
                 column := setRowQuantity (rowId cardReference) (quantity + 1) s.column }
    | none =>
        match s.column.getLast? with
        | none => s
        | some template =>
            let newRow : Row :=
              { template with
                id := rowId cardReference, quantity := 1, name := cardName,
                decWired := true, incWired := true, hidden := false }
            { s with column := s.column ++ [newRow],
                     changes := setChange s.changes cardReference 1 }

/-- The page state right after load: empty change-set, empty hero slot, and
the deck column holding just the server-rendered hidden template row. -/
def initState (template : Row) : PageState :=
  { heroName := "", heroRef := "", removeHeroDisabled := true,
    column := [template], changes := emptyChanges }

/-- `n` consecutive clicks on the same card-display tile. -/
def selectClicks (cardReference cardName cardType : String) :
    Nat → PageState → PageState
  | 0, s => s
  | n + 1, s => selectCard (selectClicks cardReference cardName cardType n s)
      cardReference cardName cardType

/-! ### Chart data preparation (`src/unnamed/part_001`)

`deckStats = Object.entries(deckStats).sort((a, b) => b[1] - a[1])` sorts the
faction/count pairs with a comparator that puts `a` before `b` exactly when
`a`'s count is at least `b`'s; we model `Array.prototype.sort` under this
comparator as insertion sort by the corresponding relation. -/

/-- The order the comparator `(a, b) => b[1] - a[1]` induces: `a` may precede
`b` when `b.2 ≤ a.2`. -/
def countGE (a b : String × Int) : Prop := b.2 ≤ a.2

instance : DecidableRel countGE := fun a b => inferInstanceAs (Decidable (b.2 ≤ a.2))

instance : IsTotal (String × Int) countGE := ⟨fun a b => (le_total b.2 a.2).imp id id⟩

instance : IsTrans (String × Int) countGE :=
  ⟨fun _ _ _ h h' => le_trans h' h⟩

/-- `deckStats` after the `.sort((a, b) => b[1] - a[1])` call. -/
def deckStatsSorted (stats : List (String × Int)) : List (String × Int) :=
  List.insertionSort countGE stats

/-- `let labels = deckStats.map((dataPoint) => dataPoint[0])`. -/
def chartLabels (stats : List (String × Int)) : List String :=
  (deckStatsSorted stats).map Prod.fst

/-- `let data = deckStats.map((dataPoint) => dataPoint[1])`. -/
def chartData (stats : List (String × Int)) : List Int :=
  (deckStatsSorted stats).map Prod.snd

/-! ### Concrete states used by the witnesses -/

/-- A sample server-rendered hidden template row. -/
def exTemplate : Row :=
  { id := "template-row", name := "", quantity := 0, hidden := true,
    decWired := true, incWired := true, markup := "tpl" }

/-- Sample state after selecting card `r1` once from the initial page. -/
def exOne : PageState := selectCard (initState exTemplate) "r1" "Alpha" ""

/-- `exOne` after one click on the new row's `add-card-btn` (row index 1):
the display shows 2 while `decklistChanges["r1"]` still holds 1. -/
def exDiverged : PageState := increaseCardQuantity exOne 1

/-- A sample state with an occupied hero slot whose reference is pending in
the change-set. -/
def exHero : PageState :=
  { heroName := "Sierra", heroRef := "h1", removeHeroDisabled := false,
    column := [exTemplate], changes := setChange emptyChanges "h1" 1 }

/-- A sample state with an occupied hero slot whose reference is absent from
the change-set. -/
def exHeroAbsent : PageState :=
  { heroName := "Sierra", heroRef := "h1", removeHeroDisabled := false,
    column := [exTemplate], changes := emptyChanges }

/-- The row built by the new-row branch of the card-display handler:
`cloneNode(true)` of `template` (listeners not cloned), then the handler sets
its id, quantity text, name text, re-attaches both listeners and un-hides it. -/
def newRowOf (template : Row) (cardReference cardName : String) : Row :=
  { template with
    id := rowId cardReference, quantity := 1, name := cardName,
    decWired := true, incWired := true, hidden := false }

/-! ### Helper lemmas -/

theorem findRow_setRowQuantity (r : String) (q : Int) :
    ∀ col : List Row,
      findRow r (setRowQuantity r q col)
        = (findRow r col).map fun row => { row with quantity := q } := by
  intro col
  induction col with
  | nil => rfl
  | cons row rest ih =>
    by_cases h : row.id = r
    · simp [findRow, setRowQuantity, h]
    · simp [findRow, setRowQuantity, h, ih]

theorem selectCard_new_column (s : PageState) (R name t : String) (template : Row)
    (ht : t ≠ "hero")
    (hnone : findRow (rowId R) s.column = none)
    (hlast : s.column.getLast? = some template) :
    (selectCard s R name t).column = s.column ++ [newRowOf template R name] ∧
    (selectCard s R name t).changes R = some 1 := by
  simp [selectCard, if_neg ht, hnone, hlast, newRowOf, setChange]

/-! ### Claim theorems -/

/-- Claim C9: the increase-quantity and decrease-quantity click handlers never
modify the `decklistChanges` change-set in any state: after either click every
change-set entry is exactly what it was before. -/
theorem spec_C9_quantity_clicks_frame (s : PageState) (i : Nat) :
    (increaseCardQuantity s i).changes = s.changes ∧
    (decreaseCardQuantity s i).changes = s.changes := by
  constructor
  · unfold increaseCardQuantity
    cases s.column[i]? <;> rfl
  · unfold decreaseCardQuantity
    cases s.column[i]? with
    | none => rfl
    | some row =>
        by_cases h : (0 : Int) < row.quantity - 1 <;> simp [h]

/-- Claim C6: after every remove-hero click on an occupied hero slot, the hero
name field's value is the empty string, its stored card reference is the empty
string, and the remove-hero control is disabled.  (The code does this
unconditionally; the occupancy hypothesis mirrors the claim's wording.) -/
theorem spec_C6_remove_hero_clears (s : PageState) (_hocc : s.heroName ≠ "") :
    (removeHero s).heroName = "" ∧ (removeHero s).heroRef = "" ∧
    (removeHero s).removeHeroDisabled = true := by
  simp only [removeHero]
  cases s.changes s.heroRef <;> exact ⟨rfl, rfl, rfl⟩

/-- Claim C6 witness at a concrete occupied state. -/
theorem spec_C6_remove_hero_clears_witness :
    exHero.heroName ≠ "" ∧
    ((removeHero exHero).heroName = "" ∧ (removeHero exHero).heroRef = "" ∧
     (removeHero exHero).removeHeroDisabled = true) :=
  ⟨by decide, spec_C6_remove_hero_clears exHero (by decide)⟩

/-- Claim C4: a remove-hero click with stored hero reference `H` toggles the
change-set: if `H` was present as a key before the click it is absent after;
if it was absent before, it maps to 0 after. -/
theorem spec_C4_remove_hero_toggle (s : PageState) :
    ((s.changes s.heroRef).isSome = true → (removeHero s).changes s.heroRef = none) ∧
    (s.changes s.heroRef = none → (removeHero s).changes s.heroRef = some 0) := by
  unfold removeHero
  cases h : s.changes s.heroRef with
  | none => simp [h, setChange]
  | some v => simp [h, delChange]

/-- Claim C4 witness: both toggle directions at concrete states. -/
theorem spec_C4_remove_hero_toggle_witness :
    ((exHero.changes exHero.heroRef).isSome = true ∧
      (removeHero exHero).changes exHero.heroRef = none) ∧
    (exHeroAbsent.changes exHeroAbsent.heroRef = none ∧
      (removeHero exHeroAbsent).changes exHeroAbsent.heroRef = some 0) :=
  ⟨⟨by decide, (spec_C4_remove_hero_toggle exHero).1 (by decide)⟩,
   ⟨by decide, (spec_C4_remove_hero_toggle exHeroAbsent).2 (by decide)⟩⟩

/-- Claim C5: a decrease-quantity click on the row at position `i`, displaying
quantity `q`, writes back `q - 1` when `q - 1` is positive and removes the
whole row container (child `i` of the deck column) otherwise; consequently if
every displayed quantity was positive before the click, every displayed
quantity is still positive after it — no row is ever shown at 0 or below. -/
theorem spec_C5_decrease_no_zero_row (s : PageState) (i : Nat) (row : Row)
    (hrow : s.column[i]? = some row) :
    (0 < row.quantity - 1 →
      (decreaseCardQuantity s i).column
        = s.column.set i { row with quantity := row.quantity - 1 }) ∧
    (¬ 0 < row.quantity - 1 →
      (decreaseCardQuantity s i).column = s.column.eraseIdx i) ∧
    ((∀ r ∈ s.column, 0 < r.quantity) →
      ∀ r ∈ (decreaseCardQuantity s i).column, 0 < r.quantity) := by
  refine ⟨?_, ?_, ?_⟩
  · intro h
    simp [decreaseCardQuantity, hrow, h]
  · intro h
    simp [decreaseCardQuantity, hrow, h]
  · intro hpos r hr
    by_cases h : (0 : Int) < row.quantity - 1
    · simp only [decreaseCardQuantity, hrow, if_pos h] at hr
      rcases List.mem_or_eq_of_mem_set hr with hmem | heq
      · exact hpos r hmem
      · subst heq; exact h
    · simp only [decreaseCardQuantity, hrow, if_neg h] at hr
      exact hpos r (List.eraseIdx_subset _ _ hr)

/-- Claim C5 witness: decrementing the row `row-r1` of `exDiverged` (showing
quantity 2 at position 1) writes back 1, and positivity is preserved. -/
theorem spec_C5_decrease_no_zero_row_witness :
    exDiverged.column[1]? = some { exTemplate with
      id := rowId "r1", quantity := 2, name := "Alpha",
      decWired := true, incWired := true, hidden := false } ∧
    (0 : Int) < 2 - 1 ∧
    (decreaseCardQuantity exDiverged 1).column
      = exDiverged.column.set 1 { exTemplate with
          id := rowId "r1", quantity := 1, name := "Alpha",
          decWired := true, incWired := true, hidden := false } :=
  ⟨by decide, by decide,
    (spec_C5_decrease_no_zero_row exDiverged 1
      { exTemplate with
        id := rowId "r1", quantity := 2, name := "Alpha",
        decWired := true, incWired := true, hidden := false }
      (by decide)).1 (by decide)⟩

/-- Claim C3: the hero slot (occupied exactly when the hero input's value is
nonempty) holds at most one reference: while occupied, a card-display click on
any hero-variant card leaves the whole page state — hero name, stored
reference and change-set included — unchanged; a remove-hero click always
leaves the slot empty; a hero-variant click on an empty slot leaves it empty
or fills it with exactly the clicked card's name and reference; and no other
click handler (normal-card select, increase, decrease) touches the slot. -/
theorem spec_C3_hero_slot_exclusive (s : PageState) (R name t : String) (i : Nat) :
    (s.heroName ≠ "" → selectCard s R name "hero" = s) ∧
    (removeHero s).heroName = "" ∧
    (s.heroName = "" →
      (selectCard s R name "hero").heroName = "" ∨
      ((selectCard s R name "hero").heroName = name ∧
       (selectCard s R name "hero").heroRef = R ∧
       (selectCard s R name "hero").changes R = some 1)) ∧
    (t ≠ "hero" →
      (selectCard s R name t).heroName = s.heroName ∧
      (selectCard s R name t).heroRef = s.heroRef) ∧
    (increaseCardQuantity s i).heroName = s.heroName ∧
    (increaseCardQuantity s i).heroRef = s.heroRef ∧
    (decreaseCardQuantity s i).heroName = s.heroName ∧
    (decreaseCardQuantity s i).heroRef = s.heroRef := by
  refine ⟨?_, ?_, ?_, ?_, ?_, ?_, ?_, ?_⟩
  · intro hocc
    simp [selectCard, hocc]
  · simp only [removeHero]
    cases s.changes s.heroRef <;> rfl
  · intro hempty
    by_cases hname : name = ""
    · left
      simp [selectCard, hempty, hname]
    · right
      simp [selectCard, hempty, setChange]
  · intro ht
    simp only [selectCard, if_neg ht]
    cases findRow (rowId R) s.column with
    | some row => exact ⟨rfl, rfl⟩
    | none => cases s.column.getLast? <;> exact ⟨rfl, rfl⟩
  · simp only [increaseCardQuantity]
    cases s.column[i]? <;> rfl
  · simp only [increaseCardQuantity]
    cases s.column[i]? <;> rfl
  · simp only [decreaseCardQuantity]
    cases h : s.column[i]? with
    | none => rfl
    | some row => by_cases hq : (0 : Int) < row.quantity - 1 <;> simp [hq]
  · simp only [decreaseCardQuantity]
    cases h : s.column[i]? with
    | none => rfl
    | some row => by_cases hq : (0 : Int) < row.quantity - 1 <;> simp [hq]

/-- Claim C3 witness: with the hero slot of `exHero` occupied, selecting
another hero-variant card changes nothing at all. -/
theorem spec_C3_hero_slot_exclusive_witness :
    exHero.heroName ≠ "" ∧ selectCard exHero "h2" "Nova" "hero" = exHero :=
  ⟨by decide, (spec_C3_hero_slot_exclusive exHero "h2" "Nova" "x" 0).1 (by decide)⟩

/-- Claim C7: a card-display click on a normal (non-hero) reference `R` with
no row `row-R` present appends exactly one new row — cloned from the column's
last child (the template on a fresh page), with quantity text 1, name text the
card's name, both quantity controls wired, un-hidden — to the deck column, and
sets the change-set entry for `R` to 1. -/
theorem spec_C7_new_row_creation (s : PageState) (R name t : String) (template : Row)
    (ht : t ≠ "hero")
    (hnone : findRow (rowId R) s.column = none)
    (hlast : s.column.getLast? = some template) :
    (selectCard s R name t).column = s.column ++ [newRowOf template R name] ∧
    (newRowOf template R name).quantity = 1 ∧
    (newRowOf template R name).name = name ∧
    (newRowOf template R name).decWired = true ∧
    (newRowOf template R name).incWired = true ∧
    (newRowOf template R name).hidden = false ∧
    (selectCard s R name t).changes R = some 1 := by
  obtain ⟨hcol, hch⟩ := selectCard_new_column s R name t template ht hnone hlast
  exact ⟨hcol, rfl, rfl, rfl, rfl, rfl, hch⟩

/-- Claim C7 witness: selecting the fresh card `r1` on the initial page. -/
theorem spec_C7_new_row_creation_witness :
    ("" : String) ≠ "hero" ∧
    findRow (rowId "r1") (initState exTemplate).column = none ∧
    (initState exTemplate).column.getLast? = some exTemplate ∧
    ((selectCard (initState exTemplate) "r1" "Alpha" "").column
        = (initState exTemplate).column ++ [newRowOf exTemplate "r1" "Alpha"] ∧
     (selectCard (initState exTemplate) "r1" "Alpha" "").changes "r1" = some 1) :=
  ⟨by decide, by decide, by decide,
    ⟨(spec_C7_new_row_creation (initState exTemplate) "r1" "Alpha" "" exTemplate
        (by decide) (by decide) (by decide)).1,
     (spec_C7_new_row_creation (initState exTemplate) "r1" "Alpha" "" exTemplate
        (by decide) (by decide) (by decide)).2.2.2.2.2.2⟩⟩

/-- Claim C10: the new-row branch clones the deck column's current last
element child and appends the clone, so afterwards the last child is the
just-inserted visible row (not the hidden template), carrying the previous
last child's cloned content; hence each subsequent new-card selection clones
the most recently inserted row. -/
theorem spec_C10_clone_last_child (s : PageState) (R name t : String) (template : Row)
    (ht : t ≠ "hero")
    (hnone : findRow (rowId R) s.column = none)
    (hlast : s.column.getLast? = some template) :
    (selectCard s R name t).column.getLast? = some (newRowOf template R name) ∧
    ((selectCard s R name t).column.getLast?).map Row.hidden = some false ∧
    ((selectCard s R name t).column.getLast?).map Row.markup = some template.markup := by
  obtain ⟨hcol, -⟩ := selectCard_new_column s R name t template ht hnone hlast
  rw [hcol, List.getLast?_concat]
  exact ⟨rfl, rfl, rfl⟩

/-- Claim C10 witness: after inserting `r1` on the fresh page, the column's
last child is the visible `row-r1` clone of the template; a second new card
`r2` then clones that row (same markup), and it in turn becomes the last
child. -/
theorem spec_C10_clone_last_child_witness :
    (exOne.column.getLast? = some (newRowOf exTemplate "r1" "Alpha") ∧
     (exOne.column.getLast?).map Row.hidden = some false) ∧
    ((selectCard exOne "r2" "Beta" "").column.getLast?
        = some (newRowOf (newRowOf exTemplate "r1" "Alpha") "r2" "Beta") ∧
     ((selectCard exOne "r2" "Beta" "").column.getLast?).map Row.markup
        = some (newRowOf exTemplate "r1" "Alpha").markup) :=
  ⟨⟨(spec_C10_clone_last_child (initState exTemplate) "r1" "Alpha" "" exTemplate
        (by decide) (by decide) (by decide)).1,
    (spec_C10_clone_last_child (initState exTemplate) "r1" "Alpha" "" exTemplate
        (by decide) (by decide) (by decide)).2.1⟩,
   ⟨(spec_C10_clone_last_child exOne "r2" "Beta" "" (newRowOf exTemplate "r1" "Alpha")
        (by decide) (by decide) (by decide)).1,
    (spec_C10_clone_last_child exOne "r2" "Beta" "" (newRowOf exTemplate "r1" "Alpha")
        (by decide) (by decide) (by decide)).2.2⟩⟩

/-- Claim C8: the chart-data preparation pairs labels and data index by index
(zipping them recovers exactly the sorted entry list), the data array is in
non-increasing order, and the sorted entry list is a permutation of the input
faction-to-count entries, so each `labels[i]` is the faction whose count is
`data[i]`. -/
theorem spec_C8_chart_sort (stats : List (String × Int)) :
    (chartLabels stats).zip (chartData stats) = deckStatsSorted stats ∧
    List.Sorted (fun x y : Int => y ≤ x) (chartData stats) ∧
    List.Perm (deckStatsSorted stats) stats := by
  refine ⟨?_, ?_, List.perm_insertionSort countGE stats⟩
  · simp only [chartLabels, chartData, List.zip_map']
    simp
  · exact (List.sorted_insertionSort countGE stats).map Prod.snd fun a b h => h

/-- Claim C2 counterexample: in the reachable state `exDiverged` (select card
`r1` once, then click its increment control once) the row `row-r1` displays 2
while `decklistChanges["r1"]` is 1; a card-display click on `r1` then leaves
the displayed quantity at 2 instead of incrementing it to 3, because the
handler takes `decklistChanges["r1"] || displayed` as the base quantity. -/
theorem spec_C2_counterexample :
    (findRow (rowId "r1") exDiverged.column).map Row.quantity = some 2 ∧
    exDiverged.changes "r1" = some 1 ∧
    ¬ ((findRow (rowId "r1") (selectCard exDiverged "r1" "Alpha" "").column).map
        Row.quantity = some (2 + 1)) := by
  decide

/-- Claim C2 (amended): a card-display click on a normal reference `R` whose
row exists sets both the change-set entry and the displayed quantity to
`q + 1`, where `q` is the change-set entry for `R` when present and nonzero
and the displayed quantity otherwise; the displayed quantity thus increments
by exactly 1 only when the change-set entry is absent, zero, or already equal
to the displayed quantity. -/
theorem spec_C2_select_existing_row (s : PageState) (R name t : String) (row : Row)
    (q : Int) (ht : t ≠ "hero")
    (hrow : findRow (rowId R) s.column = some row)
    (hq : (match s.changes R with
           | some v => if v = 0 then row.quantity else v
           | none => row.quantity) = q) :
    (selectCard s R name t).changes R = some (q + 1) ∧
    findRow (rowId R) (selectCard s R name t).column
      = some { row with quantity := q + 1 } := by
  simp only [selectCard, if_neg ht, hrow]
  constructor
  · simp [setChange, hq]
  · simp [findRow_setRowQuantity, hrow, hq]

/-- Claim C2 (amended) witness at the concrete diverged state: the change-set
entry 1 is the base, so both the entry and the display become 2. -/
theorem spec_C2_select_existing_row_witness :
    ("" : String) ≠ "hero" ∧
    findRow (rowId "r1") exDiverged.column
      = some { exTemplate with
          id := rowId "r1", quantity := 2, name := "Alpha",
          decWired := true, incWired := true, hidden := false } ∧
    ((selectCard exDiverged "r1" "Alpha" "").changes "r1" = some (1 + 1) ∧
     findRow (rowId "r1") (selectCard exDiverged "r1" "Alpha" "").column
       = some { exTemplate with
           id := rowId "r1", quantity := 1 + 1, name := "Alpha",
           decWired := true, incWired := true, hidden := false }) :=
  ⟨by decide, by decide,
    spec_C2_select_existing_row exDiverged "r1" "Alpha" ""
      { exTemplate with
        id := rowId "r1", quantity := 2, name := "Alpha",
        decWired := true, incWired := true, hidden := false }
      1 (by decide) (by decide) (by decide)⟩

/-- Helper for Claim C1: after `m + 1` clicks on the same normal-card tile
from the initial page, the column is the template followed by one row for `R`
displaying `m + 1`, and the change-set maps `R` to `m + 1` and everything else
to nothing. -/
theorem selectClicks_run (template : Row) (R name t : String)
    (ht : t ≠ "hero") (hid : template.id ≠ rowId R) :
    ∀ m : Nat,
      (selectClicks R name t (m + 1) (initState template)).column
        = [template, { newRowOf template R name with quantity := ((m + 1 : Nat) : Int) }] ∧
      ∀ x, (selectClicks R name t (m + 1) (initState template)).changes x
        = if x = R then some ((m + 1 : Nat) : Int) else none := by
  intro m
  induction m with
  | zero =>
      constructor
      · simp [selectClicks, selectCard, if_neg ht, findRow, if_neg hid, initState,
          newRowOf]
      · intro x
        simp [selectClicks, selectCard, if_neg ht, findRow, if_neg hid, initState,
          setChange, emptyChanges]
  | succ m ih =>
      obtain ⟨ihcol, ihch⟩ := ih
      have hfind :
          findRow (rowId R)
            (selectClicks R name t (m + 1) (initState template)).column
            = some { newRowOf template R name with quantity := ((m + 1 : Nat) : Int) } := by
        rw [ihcol]
        simp [findRow, if_neg hid, newRowOf]
      have hchR :
          (selectClicks R name t (m + 1) (initState template)).changes R
            = some ((m + 1 : Nat) : Int) := by
        rw [ihch R]; simp
      have hcast : ((m + 1 : Nat) : Int) ≠ 0 := by positivity
      constructor
      · show (selectCard (selectClicks R name t (m + 1) (initState template))
            R name t).column = _
        simp only [selectCard, if_neg ht, hfind, hchR, if_neg hcast]
        rw [ihcol]
        simp only [setRowQuantity, if_neg hid, newRowOf]
        norm_num
      · intro x
        show (selectCard (selectClicks R name t (m + 1) (initState template))
            R name t).changes x = _
        simp only [selectCard, if_neg ht, hfind, hchR, if_neg hcast, setChange]
        by_cases hx : x = R
        · simp [hx]
        · simp [hx, ihch x]

/-- Claim C1: starting from the initial page (empty change-set, no row for
`R`, just the hidden template in the column), a sequence of `n ≥ 1` clicks on
the same normal-card tile `R` leaves the row for `R` displaying exactly `n`,
and `decklistChanges[R]` equal to that displayed quantity.  (For `n = 0` no
row for `R` exists, so the displayed quantity is only defined from the first
click on.) -/
theorem spec_C1_select_sequence (template : Row) (R name t : String) (n : Nat)
    (ht : t ≠ "hero") (hid : template.id ≠ rowId R) (hn : 1 ≤ n) :
    (findRow (rowId R) (selectClicks R name t n (initState template)).column).map
        Row.quantity = some (n : Int) ∧
    (selectClicks R name t n (initState template)).changes R = some (n : Int) := by
  obtain ⟨m, rfl⟩ : ∃ m, n = m + 1 := ⟨n - 1, by omega⟩
  obtain ⟨hcol, hch⟩ := selectClicks_run template R name t ht hid m
  refine ⟨?_, by simpa using hch R⟩
  rw [hcol]
  simp [findRow, if_neg hid, newRowOf]

/-- Claim C1 witness: three clicks on the `r1` tile from the initial page
leave `row-r1` showing 3 and `decklistChanges["r1"] = 3`. -/
theorem spec_C1_select_sequence_witness :
    ("" : String) ≠ "hero" ∧ exTemplate.id ≠ rowId "r1" ∧ 1 ≤ 3 ∧
    ((findRow (rowId "r1")
        (selectClicks "r1" "Alpha" "" 3 (initState exTemplate)).column).map
          Row.quantity = some (3 : Int) ∧
     (selectClicks "r1" "Alpha" "" 3 (initState exTemplate)).changes "r1"
        = some (3 : Int)) :=
  ⟨by decide, by decide, by decide,
    spec_C1_select_sequence exTemplate "r1" "Alpha" "" 3 (by decide) (by decide)
      (by decide)⟩
